import Mathlib

/-!
# Verification of the VERAStatus hydrogen-maser status pipeline

Shallow embedding of `src/VERAStatus/HydrogenMaserServer.py`: the fixed
31-parameter schema, the tab-separated status-line decoder
(`status_factory`), the timestamp derivation (`HydrogenMaserStatus.date_time`),
the daily-report formatter (`HydrogenMaserStatus.output_str`), and the
orchestrator (`current_status`) including its latest-file selection and
freshness check.

Python floats are modelled as rationals (`ℚ`); Python exceptions are
modelled as `Except`/`Option` results.  The helper module
`VERAStatus.Utility` (providing `round_float`, `JST` and
`absolute_time_difference_second`) is not part of the sources; those
helpers are modelled from the specification and are marked as such.
-/

deriving instance DecidableEq for Except

set_option allowUnsafeReducibility true in
attribute [semireducible] Rat.mul Rat.add Rat.inv Rat.sub Rat.ofScientific

namespace VERAStatus

/-- One entry of the static parameter schema returned by
`status_parameters()` (label, accuracy in log10, unit, optional daily
report position).  Mirrors the dictionaries in
`HydrogenMaserServer.status_parameters`. -/
structure ParamDescr where
  label : String
  accuracy : ℤ
  unit : String
  daily_report_index : Option ℕ
deriving DecidableEq

/-- `ParameterSetting` from `HydrogenMaserServer.py` (lines 10-19): one
decoded parameter of a status record. -/
structure ParameterSetting where
  label : String
  value : ℚ
  accuracy : ℤ
  unit : String
  daily_report_index : Option ℕ
deriving DecidableEq

instance : Inhabited ParameterSetting := ⟨⟨"", 0, 0, "", none⟩⟩

instance : Inhabited ParamDescr := ⟨⟨"", 0, "", none⟩⟩

/-- Shorthand for a schema entry without a daily report index. -/
def pd (label : String) (accuracy : ℤ) (unit : String) : ParamDescr :=
  ⟨label, accuracy, unit, none⟩

/-- Shorthand for a schema entry with a daily report index. -/
def pdR (label : String) (accuracy : ℤ) (unit : String) (idx : ℕ) : ParamDescr :=
  ⟨label, accuracy, unit, some idx⟩

/-- The static schema `status_parameters()` of
`HydrogenMaserServer.py` (lines 133-201): the ordered list of the 31
parameter descriptors. -/
def status_parameters : List ParamDescr :=
  [ pd "total_days_from_19000101" 0 "days",
    pd "time" 0 "",
    pd "temperature_cavity" (-3) "Cdeg",
    pd "temperature_shield1_main" (-3) "Cdeg",
    pd "temperature_shield2_lower" (-3) "Cdeg",
    pd "temperature_shield3_upper" (-3) "Cdeg",
    pd "temperature_shield3_main" (-3) "Cdeg",
    pd "temperature_shield3_lower" (-3) "Cdeg",
    pd "temperature_electronics" (-3) "Cdeg",
    pd "temperature_room" (-3) "Cdeg",
    pd "H_pressure_source_kPa" (-3) "kPa",
    pdR "H_pressure_cell" (-2) "Pa" 2,
    pdR "dissociate_intensity" 0 "" 1,
    pdR "OCXO_control_voltage" (-2) "V" 5,
    pdR "maser_RX_level" (-1) "dBm" 4,
    pd "cavity_IF_level" (-3) "V",
    pd "cavity_automatic_tube_error_voltage" (-3) "V",
    pdR "varicap_voltage" (-2) "V" 3,
    pdR "ion_pump_current" (-3) "mA" 0,
    pd "ion_pump_voltage" (-3) "kV",
    pd "dissociation_drive_current" (-4) "A",
    pd "battery_voltage" (-3) "V",
    pdR "battery_current" (-4) "A" 6,
    pd "battery_charge_voltage" (-3) "V",
    pd "power_supply_voltage+24" (-3) "V",
    pd "power_supply_voltage+12" (-3) "V",
    pd "power_supply_voltage-12" (-3) "V",
    pd "power_analog_supply_voltage+5" (-3) "V",
    pd "power_digital_supply_voltage+5" (-3) "V",
    pd "power_supply_voltage+3.3" (-3) "V",
    pd "reserve" (-3) "Cdeg" ]

/-! ## Parsing a numeric token (Python `float(str_value)`) -/

/-- Decimal digit test. -/
def isDigit (c : Char) : Bool := '0' ≤ c && c ≤ '9'

/-- Value of a list of decimal digit characters. -/
def digitsToNat (cs : List Char) : ℕ :=
  cs.foldl (fun n c => 10 * n + (c.toNat - '0'.toNat)) 0

/-- Split a character list at the first character satisfying `p`:
returns the part before it and, when found, the part after it. -/
def breakAt (p : Char → Bool) : List Char → List Char × Option (List Char)
  | [] => ([], none)
  | c :: cs =>
      if p c then ([], some cs)
      else
        let r := breakAt p cs
        (c :: r.1, r.2)

/-- Exponent part of a float literal (after `e`/`E`): optional sign and a
nonempty digit string. -/
def parseExp (cs : List Char) : Option ℤ :=
  match cs with
  | [] => none
  | '+' :: rest =>
      if rest ≠ [] ∧ rest.all isDigit then some (digitsToNat rest : ℤ) else none
  | '-' :: rest =>
      if rest ≠ [] ∧ rest.all isDigit then some (-(digitsToNat rest : ℤ)) else none
  | _ => if cs.all isDigit then some (digitsToNat cs : ℤ) else none

/-- Mantissa of a float literal: digits with an optional decimal point,
at least one digit overall (`"1."`, `".5"`, `"12.5"`, `"3"` are all
accepted, as by Python's `float`). -/
def parseMantissa (cs : List Char) : Option ℚ :=
  let r := breakAt (fun c => c == '.') cs
  match r.2 with
  | none =>
      if r.1 ≠ [] ∧ r.1.all isDigit then some (digitsToNat r.1 : ℚ) else none
  | some fp =>
      if (r.1 ≠ [] ∨ fp ≠ []) ∧ r.1.all isDigit ∧ fp.all isDigit then
        some ((digitsToNat r.1 : ℚ) + (digitsToNat fp : ℚ) / 10 ^ fp.length)
      else none

/-- Model of Python's `float(s)` on plain decimal literals (optional
sign, digits, optional fraction, optional exponent), as exact rational
values; other strings fail. -/
def parseFloat (s : String) : Option ℚ :=
  let signBody : ℚ × List Char :=
    match s.data with
    | '+' :: rest => (1, rest)
    | '-' :: rest => (-1, rest)
    | cs => (1, cs)
  let r := breakAt (fun c => c == 'e' || c == 'E') signBody.2
  match parseMantissa r.1, r.2 with
  | some m, none => some (signBody.1 * m)
  | some m, some ec => (parseExp ec).map (fun e => signBody.1 * m * (10 : ℚ) ^ e)
  | none, _ => none

/-! ## The decoder `status_factory` -/

/-- A timezone-aware calendar timestamp, as Python's `datetime`;
`tzOffsetMinutes` is the UTC offset (540 for `+0900`). -/
structure DateTime where
  year : ℕ
  month : ℕ
  day : ℕ
  hour : ℕ
  minute : ℕ
  second : ℕ
  tzOffsetMinutes : ℤ
deriving DecidableEq

/-- Failure modes of the pipeline, as the Python exceptions raised by
`HydrogenMaserServer.py`.  `noDataError` is the dedicated missing-data
error category of the specification (§7 `NoDataError`); it is included
here so that claims about it can be stated, but no function of this
embedding ever produces it. -/
inductive ReadError where
  /-- Python `TypeError`: `max()` called with no arguments
  (zero matching data files in `current_status`). -/
  | typeErrorNoArgs : ReadError
  /-- Python `TypeError`: `max(path, key=...)` with a single unpacked,
  non-iterable path (exactly one matching data file). -/
  | typeErrorNotIterable : ReadError
  /-- Python `ValueError`: a token not parseable by `float`, or an
  invalid timestamp in `strptime`. -/
  | valueError : ReadError
  /-- Python `TypeError`: `HydrogenMaserStatus(*args)` called with fewer
  than 31 positional arguments. -/
  | typeErrorArity : ReadError
  /-- `DataReadError` raised by the staleness check of `current_status`
  (lines 223-226); carries the two timestamps of its message: the
  wall-clock time first, the latest data time second. -/
  | staleError : DateTime → DateTime → ReadError
  /-- The specification's `NoDataError` category; never raised by the code. -/
  | noDataError : ReadError
deriving DecidableEq

/-- Builds a `ParameterSetting` from a schema entry and a decoded value,
as the list comprehension of `status_factory` (lines 104-110) does. -/
def mkSetting (d : ParamDescr) (v : ℚ) : ParameterSetting :=
  ⟨d.label, v, d.accuracy, d.unit, d.daily_report_index⟩

/-- `zip(status_parameters(), str_value_list)` followed by `float` on each
zipped token: Python's `zip` truncates to the shorter sequence, and a
non-parsing token aborts the comprehension with a `ValueError`. -/
def zipParse : List ParamDescr → List String → Option (List ParameterSetting)
  | [], _ => some []
  | _ :: _, [] => some []
  | d :: ds, t :: ts =>
      match parseFloat t, zipParse ds ts with
      | some v, some rest => some (mkSetting d v :: rest)
      | _, _ => none

/-- `status_factory` (lines 95-111): zips the 31 schema entries with the
tokens, parses each zipped token as a float, and applies the
`HydrogenMaserStatus` constructor, which needs exactly 31 positional
arguments (fewer raise a `TypeError`; extra tokens were already dropped
by `zip`). -/
def status_factory (tokens : List String) : Except ReadError (List ParameterSetting) :=
  match zipParse status_parameters tokens with
  | none => .error .valueError
  | some fields =>
      if fields.length = 31 then .ok fields else .error .typeErrorArity

/-! ## The timestamp derivation `HydrogenMaserStatus.date_time` -/

/-- Python's built-in `round` to an integer: round half to even. -/
def roundHalfEven (q : ℚ) : ℤ :=
  let f := q.floor
  let frac := q - (f : ℚ)
  if frac < 1 / 2 then f
  else if 1 / 2 < frac then f + 1
  else if f % 2 = 0 then f else f + 1

/-- Gregorian leap-year test. -/
def isLeapYear (y : ℕ) : Bool :=
  (y % 4 == 0 && y % 100 != 0) || y % 400 == 0

/-- Number of days of month `m` of year `y`. -/
def daysInMonth (y m : ℕ) : ℕ :=
  if m = 2 then (if isLeapYear y then 29 else 28)
  else if m = 4 ∨ m = 6 ∨ m = 9 ∨ m = 11 then 30
  else 31

/-- Models `datetime.strptime(s14 ++ "+0900", "%Y%m%d%H%M%S%z")` on its
intended 14-digit input: four year digits then two digits each for
month, day, hour, minute and second, validated as a real calendar
date/time (as the `datetime` constructor does); any other string fails
with a `ValueError`.  The resulting timestamp carries the fixed UTC+9
offset. -/
def parseTimestampJST (s : String) : Option DateTime :=
  let cs := s.data
  if cs.length = 14 ∧ cs.all isDigit then
    let y := digitsToNat (cs.take 4)
    let mo := digitsToNat ((cs.drop 4).take 2)
    let d := digitsToNat ((cs.drop 6).take 2)
    let h := digitsToNat ((cs.drop 8).take 2)
    let mi := digitsToNat ((cs.drop 10).take 2)
    let sec := digitsToNat ((cs.drop 12).take 2)
    if 1 ≤ mo ∧ mo ≤ 12 ∧ 1 ≤ d ∧ d ≤ daysInMonth y mo ∧
        h ≤ 23 ∧ mi ≤ 59 ∧ sec ≤ 59 then
      some ⟨y, mo, d, h, mi, sec, 540⟩
    else none
  else none

/-- The timestamp derivation from the `time` field value, as
`HydrogenMaserStatus.date_time` (lines 59-66) computes it:
`datetime.strptime(f"20{str(int(round(time * 1.e6)))}+0900",
"%Y%m%d%H%M%S%z")`. -/
def date_time_of_time (t : ℚ) : Option DateTime :=
  parseTimestampJST ("20" ++ toString (roundHalfEven (t * 1000000)))

/-- `HydrogenMaserStatus.date_time`: reads only `self.time.value`, the
second field of the record. -/
def date_time (fields : List ParameterSetting) : Option DateTime :=
  date_time_of_time (fields.getD 1 default).value

/-! ## Freshness validation -/

/-- Days since 1970-01-01 of a Gregorian civil date
(Hinnant's `days_from_civil`, over truncating integer division). -/
def daysFromCivil (y m d : ℤ) : ℤ :=
  let y' := if m ≤ 2 then y - 1 else y
  let era := (if 0 ≤ y' then y' else y' - 399) / 400
  let yoe := y' - era * 400
  let doy := (153 * (if 2 < m then m - 3 else m + 9) + 2) / 5 + d - 1
  let doe := yoe * 365 + yoe / 4 - yoe / 100 + doy
  era * 146097 + doe - 719468

/-- Seconds since the Unix epoch of a timezone-aware timestamp
(the instant it denotes, offset removed), as `datetime` subtraction
uses. -/
def epochSeconds (t : DateTime) : ℤ :=
  daysFromCivil t.year t.month t.day * 86400 +
    t.hour * 3600 + t.minute * 60 + t.second - t.tzOffsetMinutes * 60

/-- Modelled from the spec: `absolute_time_difference_second` from the
missing module `VERAStatus.Utility` — the absolute difference in seconds
between two timestamps (`abs` of the `timedelta` of two aware
`datetime`s, in seconds). -/
def absolute_time_difference_second (t1 t2 : DateTime) : ℤ :=
  |epochSeconds t1 - epochSeconds t2|

/-- The freshness check of `current_status` (lines 222-226): a data
timestamp differing from the wall-clock time by strictly more than 60
seconds raises a `DataReadError` whose message carries both the current
time and the latest data time. -/
def check_freshness (latest_data_time current_time : DateTime) :
    Except ReadError Unit :=
  if 60 < absolute_time_difference_second latest_data_time current_time then
    .error (.staleError current_time latest_data_time)
  else .ok ()

/-! ## The report formatter `HydrogenMaserStatus.output_str` -/

/-- Modelled from the spec: `round_float` from the missing module
`VERAStatus.Utility` — round `value` to the decimal precision implied by
the power-of-ten exponent `accuracy` (`-3` means 3 decimal places, `0`
means nearest integer), rounding half to even as Python's `round`
does. -/
def round_float (value : ℚ) (accuracy : ℤ) : ℚ :=
  (roundHalfEven (value * (10 : ℚ) ^ (-accuracy)) : ℚ) * (10 : ℚ) ^ accuracy

/-- Modelled from the spec: the rendering of the rounded value inside the
report line's f-string — Python's `str` of a float with a short finite
decimal expansion: sign, integer part, a decimal point, and the
fractional digits with trailing zeros dropped (`".0"` when the value is
an integer). -/
def floatStr (q : ℚ) : String :=
  let sgn := if q < 0 then "-" else ""
  let a := |q|
  match (List.range 31).find? (fun k => (a * 10 ^ k).den == 1) with
  | none => sgn ++ toString a
  | some k =>
      let n := (a * 10 ^ k).num.toNat
      let ip := n / 10 ^ k
      let fp := n % 10 ^ k
      let fpDigits := toString fp
      let fpPadded :=
        String.mk (List.replicate (k - fpDigits.length) '0') ++ fpDigits
      let fpTrimmed := String.mk ((fpPadded.data.reverse.dropWhile (· == '0')).reverse)
      sgn ++ toString ip ++ "." ++ (if fpTrimmed = "" then "0" else fpTrimmed)

/-- One line of the daily report, as the f-string of `output_str`
(lines 79-81): `"<label>: <rounded value><unit>"`. -/
def fieldLine (s : ParameterSetting) : String :=
  s.label ++ ": " ++ floatStr (round_float s.value s.accuracy) ++ s.unit

/-- Sort key used by `output_str` (line 83): the daily report index
(only applied to fields that have one). -/
def idxKey (s : ParameterSetting) : ℕ :=
  s.daily_report_index.getD 0

/-- Stable insertion into a list sorted ascending by `idxKey`. -/
def insertByIdx (a : ParameterSetting) :
    List ParameterSetting → List ParameterSetting
  | [] => [a]
  | b :: l => if idxKey a ≤ idxKey b then a :: b :: l else b :: insertByIdx a l

/-- Stable sort ascending by `idxKey`, as Python's `sorted` with
`key=lambda s: s["daily_report_index"]`. -/
def sortByIdx : List ParameterSetting → List ParameterSetting
  | [] => []
  | a :: l => insertByIdx a (sortByIdx l)

/-- The fields selected and ordered by `output_str` (lines 75-83): those
with a daily report index, sorted ascending by it. -/
def reportFields (fields : List ParameterSetting) : List ParameterSetting :=
  sortByIdx (fields.filter (fun s => s.daily_report_index.isSome))

/-- `HydrogenMaserStatus.output_str` (lines 68-84): the report lines of
the selected fields, joined with newlines. -/
def output_str (fields : List ParameterSetting) : String :=
  String.intercalate "\n" ((reportFields fields).map fieldLine)

/-! ## The orchestrator `current_status` -/

/-- A candidate data file as `current_status` sees it: its path, its
modification time, and the tab-split tokens of its last line. -/
structure DataFile where
  path : String
  mtime : ℤ
  lastLineTokens : List String
deriving DecidableEq

/-- The file selection of `current_status` (lines 213-216):
`max(*[paths...], key=mtime)`.  With zero matching files Python's `max`
gets no argument and raises a `TypeError`; with exactly one, the single
unpacked path is treated as the iterable argument of `max` and raises a
`TypeError` (a path is not iterable); with two or more, `max` returns
the first file whose modification time is maximal. -/
def select_latest_file (files : List DataFile) : Except ReadError DataFile :=
  match files with
  | [] => .error .typeErrorNoArgs
  | [_] => .error .typeErrorNotIterable
  | f :: rest =>
      .ok (rest.foldl (fun best g => if best.mtime < g.mtime then g else best) f)

/-- `current_status` (lines 204-227): select the most recently modified
matching file, decode its last line, derive the timestamp, and check
freshness against the wall-clock time `now`; the status record is
returned only when every step succeeds. -/
def current_status (files : List DataFile) (now : DateTime) :
    Except ReadError (List ParameterSetting) :=
  match select_latest_file files with
  | .error e => .error e
  | .ok f =>
      match status_factory f.lastLineTokens with
      | .error e => .error e
      | .ok status =>
          match date_time status with
          | none => .error .valueError
          | some t =>
              match check_freshness t now with
              | .error e => .error e
              | .ok _ => .ok status

/-! ## Concrete fixtures used by the witnesses -/

/-- A status line of 31 zero tokens. -/
def zeroTokens : List String := List.replicate 31 "0"

/-- The record decoded from `zeroTokens`. -/
def zeroRecord : List ParameterSetting :=
  List.zipWith mkSetting status_parameters (List.replicate 31 (0 : ℚ))

/-- A status line whose 19th token (`ion_pump_current`) is
`"-2.34567e-3"` and whose other 30 tokens are zero. -/
def ionTokens : List String :=
  List.replicate 18 "0" ++ "-2.34567e-3" :: List.replicate 12 "0"

/-- The record decoded from `ionTokens`. -/
def ionRecord : List ParameterSetting :=
  List.zipWith mkSetting status_parameters
    (List.replicate 18 (0 : ℚ) ++ (-234567 : ℚ) / 100000000 :: List.replicate 12 (0 : ℚ))

/-! ## Helper lemmas -/

theorem status_parameters_length : status_parameters.length = 31 := rfl

theorem zipParse_length (ds : List ParamDescr) :
    ∀ (ts : List String) (l : List ParameterSetting),
      zipParse ds ts = some l → l.length = min ds.length ts.length := by
  induction ds with
  | nil =>
      intro ts l h
      simp only [zipParse, Option.some.injEq] at h
      simp [← h]
  | cons d ds ih =>
      intro ts l h
      cases ts with
      | nil =>
          simp only [zipParse, Option.some.injEq] at h
          simp [← h]
      | cons t ts =>
          simp only [zipParse] at h
          cases hp : parseFloat t with
          | none => rw [hp] at h; simp at h
          | some v =>
              rw [hp] at h
              cases hz : zipParse ds ts with
              | none => rw [hz] at h; simp at h
              | some rest =>
                  rw [hz] at h
                  simp only [Option.some.injEq] at h
                  have := ih ts rest hz
                  simp [← h, List.length_cons, this]
                  omega

theorem zipParse_isSome (ds : List ParamDescr) :
    ∀ ts : List String,
      (∀ t ∈ ts.take ds.length, (parseFloat t).isSome = true) →
      (zipParse ds ts).isSome = true := by
  induction ds with
  | nil => intro ts _; simp [zipParse]
  | cons d ds ih =>
      intro ts hp
      cases ts with
      | nil => simp [zipParse]
      | cons t ts =>
          have hpt : (parseFloat t).isSome = true := by
            apply hp; simp [List.take]
          obtain ⟨v, hv⟩ := Option.isSome_iff_exists.mp hpt
          have hrest : (zipParse ds ts).isSome = true := by
            apply ih
            intro u hu
            apply hp
            simp only [List.length_cons, List.take]
            exact List.mem_cons_of_mem _ hu
          obtain ⟨rest, hr⟩ := Option.isSome_iff_exists.mp hrest
          simp [zipParse, hv, hr]

theorem zipParse_getD (ds : List ParamDescr) :
    ∀ (ts : List String) (l : List ParameterSetting),
      zipParse ds ts = some l →
      ∀ i, i < l.length →
        ∃ v, parseFloat (ts.getD i "") = some v ∧
          l.getD i default = mkSetting (ds.getD i default) v := by
  induction ds with
  | nil =>
      intro ts l h i hi
      simp only [zipParse, Option.some.injEq] at h
      rw [← h] at hi
      simp at hi
  | cons d ds ih =>
      intro ts l h i hi
      cases ts with
      | nil =>
          simp only [zipParse, Option.some.injEq] at h
          rw [← h] at hi
          simp at hi
      | cons t ts =>
          simp only [zipParse] at h
          cases hp : parseFloat t with
          | none => rw [hp] at h; simp at h
          | some v =>
              rw [hp] at h
              cases hz : zipParse ds ts with
              | none => rw [hz] at h; simp at h
              | some rest =>
                  rw [hz] at h
                  simp only [Option.some.injEq] at h
                  subst h
                  cases i with
                  | zero => exact ⟨v, hp, rfl⟩
                  | succ j =>
                      simp only [List.length_cons, Nat.succ_lt_succ_iff] at hi
                      simpa using ih ts rest hz j hi

theorem zipParse_values (ds : List ParamDescr) :
    ∀ (ts : List String) (l : List ParameterSetting),
      zipParse ds ts = some l →
      ∃ vs : List ℚ, vs.length = l.length ∧ l = List.zipWith mkSetting ds vs := by
  induction ds with
  | nil =>
      intro ts l h
      simp only [zipParse, Option.some.injEq] at h
      exact ⟨[], by simp [← h], by simp [← h]⟩
  | cons d ds ih =>
      intro ts l h
      cases ts with
      | nil =>
          simp only [zipParse, Option.some.injEq] at h
          exact ⟨[], by simp [← h], by simp [← h]⟩
      | cons t ts =>
          simp only [zipParse] at h
          cases hp : parseFloat t with
          | none => rw [hp] at h; simp at h
          | some v =>
              rw [hp] at h
              cases hz : zipParse ds ts with
              | none => rw [hz] at h; simp at h
              | some rest =>
                  rw [hz] at h
                  simp only [Option.some.injEq] at h
                  subst h
                  obtain ⟨vs, hlen, heq⟩ := ih ts rest hz
                  exact ⟨v :: vs, by simp [hlen], by simp [heq]⟩

theorem status_factory_ok (ts : List String) (r : List ParameterSetting)
    (h : status_factory ts = .ok r) :
    zipParse status_parameters ts = some r ∧ r.length = 31 ∧ 31 ≤ ts.length := by
  unfold status_factory at h
  cases hz : zipParse status_parameters ts with
  | none => rw [hz] at h; simp at h
  | some l =>
      rw [hz] at h
      dsimp only at h
      by_cases hl : l.length = 31
      · rw [if_pos hl] at h
        simp only [Except.ok.injEq] at h
        subst h
        refine ⟨rfl, hl, ?_⟩
        have := zipParse_length status_parameters ts l hz
        rw [status_parameters_length] at this
        omega
      · rw [if_neg hl] at h
        simp at h

/-! ## Claim theorems -/

/-- C8: the static parameter schema contains exactly 31 descriptors in a
fixed order whose first two entries are `total_days_from_19000101` and
`time`, and exactly 7 of the 31 descriptors carry a daily report rank,
those ranks being precisely the integers 0 through 6, each occurring
exactly once. -/
theorem schema_invariants :
    status_parameters.length = 31 ∧
    (status_parameters.getD 0 default).label = "total_days_from_19000101" ∧
    (status_parameters.getD 1 default).label = "time" ∧
    (status_parameters.filterMap (fun p => p.daily_report_index)).length = 7 ∧
    List.Perm (status_parameters.filterMap (fun p => p.daily_report_index))
      [0, 1, 2, 3, 4, 5, 6] := by
  refine ⟨rfl, rfl, rfl, rfl, ?_⟩
  decide

/-- C1 counterexample: a token sequence of 32 well-formed numeric tokens
does **not** fail — `zip` silently drops the 32nd token and decoding
succeeds, contradicting the claim that more than 31 tokens is an
error. -/
theorem token_count_32_succeeds :
    (status_factory (List.replicate 32 "1")).isOk = true := by
  decide

/-- C1 (amended): decoding fails whenever the token sequence has fewer
than 31 tokens, and succeeds for every sequence of at least 31 tokens
whose first 31 tokens are well-formed numeric tokens (tokens beyond the
31st are silently ignored). -/
theorem status_factory_token_count (tokens : List String) :
    (tokens.length < 31 → ∃ e, status_factory tokens = .error e) ∧
    (31 ≤ tokens.length →
      (∀ t ∈ tokens.take 31, (parseFloat t).isSome = true) →
      ∃ r, status_factory tokens = .ok r ∧ r.length = 31) := by
  constructor
  · intro hlt
    unfold status_factory
    cases hz : zipParse status_parameters tokens with
    | none => exact ⟨.valueError, rfl⟩
    | some l =>
        have hlen := zipParse_length status_parameters tokens l hz
        rw [status_parameters_length] at hlen
        have : l.length ≠ 31 := by omega
        simp [this]
  · intro hge hp
    have hsome : (zipParse status_parameters tokens).isSome = true := by
      apply zipParse_isSome
      rw [status_parameters_length]
      exact hp
    obtain ⟨l, hl⟩ := Option.isSome_iff_exists.mp hsome
    have hlen := zipParse_length status_parameters tokens l hl
    rw [status_parameters_length] at hlen
    have h31 : l.length = 31 := by omega
    refine ⟨l, ?_, h31⟩
    unfold status_factory
    rw [hl]
    simp [h31]

/-- C1 witness: a concrete sequence of exactly 31 well-formed numeric
tokens decodes successfully into a 31-field record. -/
theorem status_factory_token_count_witness :
    ∃ r, status_factory (List.replicate 31 "0") = .ok r ∧ r.length = 31 :=
  (status_factory_token_count (List.replicate 31 "0")).2 (by decide) (by decide)

/-- C4 counterexample: with zero matching data files, `current_status`
does **not** fail with the specification's dedicated no-data error; it
fails with a generic `TypeError` from calling `max` with no
arguments. -/
theorem no_files_error_counterexample :
    current_status [] ⟨2020, 1, 1, 0, 0, 0, 540⟩ ≠
        Except.error ReadError.noDataError ∧
      current_status [] ⟨2020, 1, 1, 0, 0, 0, 540⟩ =
        Except.error ReadError.typeErrorNoArgs := by
  decide

/-- C4 (amended): with zero matching data files, `current_status` fails
— it never returns an (empty or other) report — but the error is the
generic `TypeError` of Python's `max` applied to zero arguments, not a
dedicated no-data error. -/
theorem no_files_type_error (now : DateTime) :
    current_status [] now = Except.error ReadError.typeErrorNoArgs := rfl

/-- C10: with exactly one matching data file, `current_status` fails
with the `TypeError` of `max` applied to a single unpacked, non-iterable
path, before the file's contents are ever consulted — whatever the file
holds and whatever the current time is. -/
theorem single_file_type_error (f : DataFile) (now : DateTime) :
    current_status [f] now = Except.error ReadError.typeErrorNotIterable := rfl

/-- C3: freshness validation passes whenever the absolute difference in
seconds between the record timestamp and the reference now is at most 60
seconds, and fails with a staleness error carrying both timestamps
whenever the difference is strictly greater than 60 seconds. -/
theorem freshness_threshold (t now : DateTime) :
    (absolute_time_difference_second t now ≤ 60 →
      check_freshness t now = .ok ()) ∧
    (60 < absolute_time_difference_second t now →
      check_freshness t now = .error (.staleError now t)) := by
  constructor
  · intro h
    unfold check_freshness
    rw [if_neg (by omega)]
  · intro h
    unfold check_freshness
    rw [if_pos h]

/-- C3 witness: at a difference of exactly 60 seconds the check passes,
and at 61 seconds it fails with the staleness error carrying both
timestamps. -/
theorem freshness_threshold_witness :
    check_freshness ⟨2020, 10, 26, 1, 30, 45, 540⟩ ⟨2020, 10, 26, 1, 31, 45, 540⟩ =
        .ok () ∧
      check_freshness ⟨2020, 10, 26, 1, 30, 45, 540⟩ ⟨2020, 10, 26, 1, 31, 46, 540⟩ =
        .error (.staleError ⟨2020, 10, 26, 1, 31, 46, 540⟩ ⟨2020, 10, 26, 1, 30, 45, 540⟩) :=
  ⟨(freshness_threshold ⟨2020, 10, 26, 1, 30, 45, 540⟩ ⟨2020, 10, 26, 1, 31, 45, 540⟩).1
      (by decide),
    (freshness_threshold ⟨2020, 10, 26, 1, 30, 45, 540⟩ ⟨2020, 10, 26, 1, 31, 46, 540⟩).2
      (by decide)⟩

theorem foldl_max_mem (l : List DataFile) :
    ∀ f : DataFile,
      l.foldl (fun best g => if best.mtime < g.mtime then g else best) f ∈ f :: l := by
  induction l with
  | nil => intro f; simp
  | cons g t ih =>
      intro f
      simp only [List.foldl_cons]
      have := ih (if f.mtime < g.mtime then g else f)
      rcases List.mem_cons.mp this with h | h
      · rw [h]
        by_cases hc : f.mtime < g.mtime
        · simp [hc]
        · simp [hc]
      · simp [List.mem_cons.mpr (Or.inr (List.mem_cons.mpr (Or.inr h)))]

theorem foldl_max_ge (l : List DataFile) :
    ∀ f : DataFile, ∀ x ∈ f :: l,
      x.mtime ≤ (l.foldl (fun best g => if best.mtime < g.mtime then g else best) f).mtime := by
  induction l with
  | nil =>
      intro f x hx
      rcases List.mem_cons.mp hx with h | h
      · rw [h]; simp
      · simp at h
  | cons g t ih =>
      intro f x hx
      simp only [List.foldl_cons]
      have hstep_f : f.mtime ≤ (if f.mtime < g.mtime then g else f).mtime := by
        by_cases hc : f.mtime < g.mtime
        · rw [if_pos hc]; omega
        · rw [if_neg hc]
      have hstep_g : g.mtime ≤ (if f.mtime < g.mtime then g else f).mtime := by
        by_cases hc : f.mtime < g.mtime
        · rw [if_pos hc]
        · rw [if_neg hc]; omega
      have hstep_in := ih (if f.mtime < g.mtime then g else f)
        (if f.mtime < g.mtime then g else f) (List.mem_cons_self _ _)
      rcases List.mem_cons.mp hx with h | h
      · rw [h]; exact le_trans hstep_f hstep_in
      · rcases List.mem_cons.mp h with h' | h'
        · rw [h']; exact le_trans hstep_g hstep_in
        · exact ih _ x (List.mem_cons_of_mem _ h')

/-- C7: with at least two candidate files of pairwise distinct
modification times, `select_latest_file` (and hence `current_status`)
selects the file with the latest modification timestamp, whatever the
enumeration order of the candidates. -/
theorem select_latest_max (files : List DataFile)
    (h2 : 2 ≤ files.length)
    (hd : files.Pairwise (fun a b => a.mtime ≠ b.mtime)) :
    ∃ f, select_latest_file files = .ok f ∧ f ∈ files ∧
      ∀ g ∈ files, g ≠ f → g.mtime < f.mtime := by
  match files, h2 with
  | f0 :: f1 :: rest, _ =>
    refine ⟨_, rfl, foldl_max_mem (f1 :: rest) f0, ?_⟩
    intro g hg hne
    have hle := foldl_max_ge (f1 :: rest) f0 g hg
    have hsym : Symmetric (fun a b : DataFile => a.mtime ≠ b.mtime) :=
      fun a b h => h.symm
    have hmem := foldl_max_mem (f1 :: rest) f0
    have hne' := hd.forall hsym hg hmem hne
    omega

/-- C7 witness: three concrete files with modification times 1 < 2 < 3,
listed out of order, from which the file with time 3 is selected. -/
theorem select_latest_max_witness :
    ∃ f, select_latest_file
        [⟨"b", 2, []⟩, ⟨"c", 3, []⟩, ⟨"a", 1, []⟩] = .ok f ∧
      f ∈ [⟨"b", 2, []⟩, ⟨"c", 3, []⟩, ⟨"a", 1, []⟩] ∧
      ∀ g ∈ [(⟨"b", 2, []⟩ : DataFile), ⟨"c", 3, []⟩, ⟨"a", 1, []⟩],
        g ≠ f → g.mtime < f.mtime :=
  select_latest_max [⟨"b", 2, []⟩, ⟨"c", 3, []⟩, ⟨"a", 1, []⟩]
    (by decide) (by decide)

/-- C2: for every decoded record whose `time` token is
`"201026.013045"`, the derived timestamp — `time` times 1,000,000,
rounded, decimally rendered, prefixed with `"20"` and parsed as
`YYYYMMDDhhmmss` at UTC+9 — is 2020-10-26 01:30:45 at UTC+9. -/
theorem date_time_example (tokens : List String) (r : List ParameterSetting)
    (h : status_factory tokens = .ok r)
    (ht : tokens.getD 1 "" = "201026.013045") :
    date_time r = some ⟨2020, 10, 26, 1, 30, 45, 540⟩ := by
  obtain ⟨hz, hlen, -⟩ := status_factory_ok tokens r h
  obtain ⟨v, hv, hr⟩ := zipParse_getD status_parameters tokens r hz 1 (by omega)
  rw [ht] at hv
  have hc : parseFloat "201026.013045" = some ((201026013045 : ℚ) / 1000000) := by
    decide
  rw [hc] at hv
  injection hv with hveq
  unfold date_time
  rw [hr]
  show date_time_of_time v = _
  rw [← hveq]
  decide

/-- C2 witness: a concrete 31-token line with `time` token
`"201026.013045"` decodes to a record whose derived timestamp is
2020-10-26 01:30:45 at UTC+9. -/
theorem date_time_example_witness :
    date_time (List.zipWith mkSetting status_parameters
        ((0 : ℚ) :: (201026013045 : ℚ) / 1000000 :: List.replicate 29 (0 : ℚ))) =
      some ⟨2020, 10, 26, 1, 30, 45, 540⟩ :=
  date_time_example ("0" :: "201026.013045" :: List.replicate 29 "0")
    (List.zipWith mkSetting status_parameters
      ((0 : ℚ) :: (201026013045 : ℚ) / 1000000 :: List.replicate 29 (0 : ℚ)))
    (by decide) (by decide)

/-- C9: the derived timestamp depends only on the `time` field — two
decoded records with the same `time` token have the same derived
timestamp, whatever every other token holds. -/
theorem date_time_only_time (t1 t2 : List String) (r1 r2 : List ParameterSetting)
    (h1 : status_factory t1 = .ok r1) (h2 : status_factory t2 = .ok r2)
    (ht : t1.getD 1 "" = t2.getD 1 "") :
    date_time r1 = date_time r2 := by
  obtain ⟨hz1, hlen1, -⟩ := status_factory_ok t1 r1 h1
  obtain ⟨hz2, hlen2, -⟩ := status_factory_ok t2 r2 h2
  obtain ⟨v1, hv1, hr1⟩ := zipParse_getD status_parameters t1 r1 hz1 1 (by omega)
  obtain ⟨v2, hv2, hr2⟩ := zipParse_getD status_parameters t2 r2 hz2 1 (by omega)
  rw [ht] at hv1
  rw [hv2] at hv1
  injection hv1 with hveq
  unfold date_time
  rw [hr1, hr2]
  show date_time_of_time v1 = date_time_of_time v2
  rw [hveq]

/-- C9 witness: two concrete 31-token lines agreeing only on the `time`
token decode to records with the same derived timestamp. -/
theorem date_time_only_time_witness :
    date_time (List.zipWith mkSetting status_parameters
        ((5 : ℚ) :: (201026013045 : ℚ) / 1000000 :: List.replicate 29 (7 : ℚ))) =
      date_time (List.zipWith mkSetting status_parameters
        ((8 : ℚ) :: (201026013045 : ℚ) / 1000000 :: List.replicate 29 (9 : ℚ))) :=
  date_time_only_time
    ("5" :: "201026.013045" :: List.replicate 29 "7")
    ("8" :: "201026.013045" :: List.replicate 29 "9")
    (List.zipWith mkSetting status_parameters
      ((5 : ℚ) :: (201026013045 : ℚ) / 1000000 :: List.replicate 29 (7 : ℚ)))
    (List.zipWith mkSetting status_parameters
      ((8 : ℚ) :: (201026013045 : ℚ) / 1000000 :: List.replicate 29 (9 : ℚ)))
    (by decide) (by decide) (by decide)

theorem list_eq_of_length_31 {a : Type} (vs : List a) (h : vs.length = 31) :
    ∃ v0 v1 v2 v3 v4 v5 v6 v7 v8 v9 v10 v11 v12 v13 v14 v15 v16 v17 v18 v19 v20 v21 v22 v23 v24 v25 v26 v27 v28 v29 v30, vs = [v0, v1, v2, v3, v4, v5, v6, v7, v8, v9, v10, v11, v12, v13, v14, v15, v16, v17, v18, v19, v20, v21, v22, v23, v24, v25, v26, v27, v28, v29, v30] := by
  obtain ⟨v0, vs, rfl⟩ := List.exists_of_length_succ vs h
  have h0 : vs.length = 30 := by simpa using h
  obtain ⟨v1, vs, rfl⟩ := List.exists_of_length_succ vs h0
  have h1 : vs.length = 29 := by simpa using h0
  obtain ⟨v2, vs, rfl⟩ := List.exists_of_length_succ vs h1
  have h2 : vs.length = 28 := by simpa using h1
  obtain ⟨v3, vs, rfl⟩ := List.exists_of_length_succ vs h2
  have h3 : vs.length = 27 := by simpa using h2
  obtain ⟨v4, vs, rfl⟩ := List.exists_of_length_succ vs h3
  have h4 : vs.length = 26 := by simpa using h3
  obtain ⟨v5, vs, rfl⟩ := List.exists_of_length_succ vs h4
  have h5 : vs.length = 25 := by simpa using h4
  obtain ⟨v6, vs, rfl⟩ := List.exists_of_length_succ vs h5
  have h6 : vs.length = 24 := by simpa using h5
  obtain ⟨v7, vs, rfl⟩ := List.exists_of_length_succ vs h6
  have h7 : vs.length = 23 := by simpa using h6
  obtain ⟨v8, vs, rfl⟩ := List.exists_of_length_succ vs h7
  have h8 : vs.length = 22 := by simpa using h7
  obtain ⟨v9, vs, rfl⟩ := List.exists_of_length_succ vs h8
  have h9 : vs.length = 21 := by simpa using h8
  obtain ⟨v10, vs, rfl⟩ := List.exists_of_length_succ vs h9
  have h10 : vs.length = 20 := by simpa using h9
  obtain ⟨v11, vs, rfl⟩ := List.exists_of_length_succ vs h10
  have h11 : vs.length = 19 := by simpa using h10
  obtain ⟨v12, vs, rfl⟩ := List.exists_of_length_succ vs h11
  have h12 : vs.length = 18 := by simpa using h11
  obtain ⟨v13, vs, rfl⟩ := List.exists_of_length_succ vs h12
  have h13 : vs.length = 17 := by simpa using h12
  obtain ⟨v14, vs, rfl⟩ := List.exists_of_length_succ vs h13
  have h14 : vs.length = 16 := by simpa using h13
  obtain ⟨v15, vs, rfl⟩ := List.exists_of_length_succ vs h14
  have h15 : vs.length = 15 := by simpa using h14
  obtain ⟨v16, vs, rfl⟩ := List.exists_of_length_succ vs h15
  have h16 : vs.length = 14 := by simpa using h15
  obtain ⟨v17, vs, rfl⟩ := List.exists_of_length_succ vs h16
  have h17 : vs.length = 13 := by simpa using h16
  obtain ⟨v18, vs, rfl⟩ := List.exists_of_length_succ vs h17
  have h18 : vs.length = 12 := by simpa using h17
  obtain ⟨v19, vs, rfl⟩ := List.exists_of_length_succ vs h18
  have h19 : vs.length = 11 := by simpa using h18
  obtain ⟨v20, vs, rfl⟩ := List.exists_of_length_succ vs h19
  have h20 : vs.length = 10 := by simpa using h19
  obtain ⟨v21, vs, rfl⟩ := List.exists_of_length_succ vs h20
  have h21 : vs.length = 9 := by simpa using h20
  obtain ⟨v22, vs, rfl⟩ := List.exists_of_length_succ vs h21
  have h22 : vs.length = 8 := by simpa using h21
  obtain ⟨v23, vs, rfl⟩ := List.exists_of_length_succ vs h22
  have h23 : vs.length = 7 := by simpa using h22
  obtain ⟨v24, vs, rfl⟩ := List.exists_of_length_succ vs h23
  have h24 : vs.length = 6 := by simpa using h23
  obtain ⟨v25, vs, rfl⟩ := List.exists_of_length_succ vs h24
  have h25 : vs.length = 5 := by simpa using h24
  obtain ⟨v26, vs, rfl⟩ := List.exists_of_length_succ vs h25
  have h26 : vs.length = 4 := by simpa using h25
  obtain ⟨v27, vs, rfl⟩ := List.exists_of_length_succ vs h26
  have h27 : vs.length = 3 := by simpa using h26
  obtain ⟨v28, vs, rfl⟩ := List.exists_of_length_succ vs h27
  have h28 : vs.length = 2 := by simpa using h27
  obtain ⟨v29, vs, rfl⟩ := List.exists_of_length_succ vs h28
  have h29 : vs.length = 1 := by simpa using h28
  obtain ⟨v30, vs, rfl⟩ := List.exists_of_length_succ vs h29
  have h30 : vs.length = 0 := by simpa using h29
  have hnil : vs = [] := List.length_eq_zero.mp h30
  subst hnil
  exact ⟨v0, v1, v2, v3, v4, v5, v6, v7, v8, v9, v10, v11, v12, v13, v14, v15, v16, v17, v18, v19, v20, v21, v22, v23, v24, v25, v26, v27, v28, v29, v30, rfl⟩

set_option maxHeartbeats 2000000 in
theorem report_of_values (v0 v1 v2 v3 v4 v5 v6 v7 v8 v9 v10 v11 v12 v13 v14 v15 v16 v17 v18 v19 v20 v21 v22 v23 v24 v25 v26 v27 v28 v29 v30 : ℚ) :
    (reportFields (List.zipWith mkSetting status_parameters [v0, v1, v2, v3, v4, v5, v6, v7, v8, v9, v10, v11, v12, v13, v14, v15, v16, v17, v18, v19, v20, v21, v22, v23, v24, v25, v26, v27, v28, v29, v30])).map
        (fun s => s.label) =
    ["ion_pump_current", "dissociate_intensity", "H_pressure_cell", "varicap_voltage",
      "maser_RX_level", "OCXO_control_voltage", "battery_current"] ∧
    (reportFields (List.zipWith mkSetting status_parameters [v0, v1, v2, v3, v4, v5, v6, v7, v8, v9, v10, v11, v12, v13, v14, v15, v16, v17, v18, v19, v20, v21, v22, v23, v24, v25, v26, v27, v28, v29, v30])).map
        (fun s => s.daily_report_index) = [some 0, some 1, some 2, some 3, some 4, some 5, some 6] ∧
    ((List.zipWith mkSetting status_parameters [v0, v1, v2, v3, v4, v5, v6, v7, v8, v9, v10, v11, v12, v13, v14, v15, v16, v17, v18, v19, v20, v21, v22, v23, v24, v25, v26, v27, v28, v29, v30]).filter
        (fun s => s.daily_report_index.isNone)).length = 24 ∧
    output_str (List.zipWith mkSetting status_parameters [v0, v1, v2, v3, v4, v5, v6, v7, v8, v9, v10, v11, v12, v13, v14, v15, v16, v17, v18, v19, v20, v21, v22, v23, v24, v25, v26, v27, v28, v29, v30]) =
    String.intercalate "\n"
      [ "ion_pump_current: " ++ floatStr (round_float v18 (-3)) ++ "mA",
        "dissociate_intensity: " ++ floatStr (round_float v12 0),
        "H_pressure_cell: " ++ floatStr (round_float v11 (-2)) ++ "Pa",
        "varicap_voltage: " ++ floatStr (round_float v17 (-2)) ++ "V",
        "maser_RX_level: " ++ floatStr (round_float v14 (-1)) ++ "dBm",
        "OCXO_control_voltage: " ++ floatStr (round_float v13 (-2)) ++ "V",
        "battery_current: " ++ floatStr (round_float v22 (-4)) ++ "A" ] := by
  refine ⟨rfl, rfl, rfl, ?_⟩
  simp only [output_str, reportFields, status_parameters, pd, pdR, mkSetting,
    List.zipWith, List.filter, sortByIdx, insertByIdx, idxKey,
    Option.isSome, Option.getD]
  norm_num [String.intercalate, fieldLine]
  rfl

theorem status_factory_shape (tokens : List String) (r : List ParameterSetting)
    (h : status_factory tokens = .ok r) :
    ∃ v0 v1 v2 v3 v4 v5 v6 v7 v8 v9 v10 v11 v12 v13 v14 v15 v16 v17 v18 v19 v20 v21 v22 v23 v24 v25 v26 v27 v28 v29 v30 : ℚ,
      r = List.zipWith mkSetting status_parameters [v0, v1, v2, v3, v4, v5, v6, v7, v8, v9, v10, v11, v12, v13, v14, v15, v16, v17, v18, v19, v20, v21, v22, v23, v24, v25, v26, v27, v28, v29, v30] := by
  obtain ⟨hz, hlen, -⟩ := status_factory_ok tokens r h
  obtain ⟨vs, hvslen, hr⟩ := zipParse_values status_parameters tokens r hz
  have h31 : vs.length = 31 := by rw [hvslen, hlen]
  obtain ⟨v0, v1, v2, v3, v4, v5, v6, v7, v8, v9, v10, v11, v12, v13, v14, v15, v16, v17, v18, v19, v20, v21, v22, v23, v24, v25, v26, v27, v28, v29, v30, rfl⟩ := list_eq_of_length_31 vs h31
  exact ⟨v0, v1, v2, v3, v4, v5, v6, v7, v8, v9, v10, v11, v12, v13, v14, v15, v16, v17, v18, v19, v20, v21, v22, v23, v24, v25, v26, v27, v28, v29, v30, hr⟩

set_option maxHeartbeats 2000000 in
/-- C5: for every decoded record, the formatted report contains exactly
the 7 fields whose descriptor has a report rank, ordered ascending by
rank 0 through 6, one line per field formatted as
`"<label>: <value><unit>"` and joined with newlines; the 24 rank-less
fields never appear in the report. -/
theorem report_structure (tokens : List String) (r : List ParameterSetting)
    (h : status_factory tokens = .ok r) :
    (reportFields r).map (fun s => s.label) =
      ["ion_pump_current", "dissociate_intensity", "H_pressure_cell", "varicap_voltage",
        "maser_RX_level", "OCXO_control_voltage", "battery_current"] ∧
    (reportFields r).map (fun s => s.daily_report_index) =
      [some 0, some 1, some 2, some 3, some 4, some 5, some 6] ∧
    (r.filter (fun s => s.daily_report_index.isNone)).length = 24 ∧
    output_str r =
    String.intercalate "\n"
      [ "ion_pump_current: " ++ floatStr (round_float (r.getD 18 default).value (-3)) ++ "mA",
        "dissociate_intensity: " ++ floatStr (round_float (r.getD 12 default).value 0),
        "H_pressure_cell: " ++ floatStr (round_float (r.getD 11 default).value (-2)) ++ "Pa",
        "varicap_voltage: " ++ floatStr (round_float (r.getD 17 default).value (-2)) ++ "V",
        "maser_RX_level: " ++ floatStr (round_float (r.getD 14 default).value (-1)) ++ "dBm",
        "OCXO_control_voltage: " ++ floatStr (round_float (r.getD 13 default).value (-2)) ++ "V",
        "battery_current: " ++ floatStr (round_float (r.getD 22 default).value (-4)) ++ "A" ] := by
  obtain ⟨v0, v1, v2, v3, v4, v5, v6, v7, v8, v9, v10, v11, v12, v13, v14, v15, v16, v17, v18, v19, v20, v21, v22, v23, v24, v25, v26, v27, v28, v29, v30, rfl⟩ := status_factory_shape tokens r h
  exact report_of_values v0 v1 v2 v3 v4 v5 v6 v7 v8 v9 v10 v11 v12 v13 v14 v15 v16 v17 v18 v19 v20 v21 v22 v23 v24 v25 v26 v27 v28 v29 v30

set_option maxHeartbeats 2000000 in
/-- C5 witness: the all-zero 31-token line decodes to a record whose
report has exactly the 7 ranked lines in rank order. -/
theorem report_structure_witness :
    (reportFields zeroRecord).map (fun s => s.label) =
      ["ion_pump_current", "dissociate_intensity", "H_pressure_cell", "varicap_voltage",
        "maser_RX_level", "OCXO_control_voltage", "battery_current"] ∧
    (reportFields zeroRecord).map (fun s => s.daily_report_index) =
      [some 0, some 1, some 2, some 3, some 4, some 5, some 6] ∧
    (zeroRecord.filter (fun s => s.daily_report_index.isNone)).length = 24 ∧
    output_str zeroRecord =
    String.intercalate "\n"
      [ "ion_pump_current: " ++ floatStr (round_float (zeroRecord.getD 18 default).value (-3)) ++ "mA",
        "dissociate_intensity: " ++ floatStr (round_float (zeroRecord.getD 12 default).value 0),
        "H_pressure_cell: " ++ floatStr (round_float (zeroRecord.getD 11 default).value (-2)) ++ "Pa",
        "varicap_voltage: " ++ floatStr (round_float (zeroRecord.getD 17 default).value (-2)) ++ "V",
        "maser_RX_level: " ++ floatStr (round_float (zeroRecord.getD 14 default).value (-1)) ++ "dBm",
        "OCXO_control_voltage: " ++ floatStr (round_float (zeroRecord.getD 13 default).value (-2)) ++ "V",
        "battery_current: " ++ floatStr (round_float (zeroRecord.getD 22 default).value (-4)) ++ "A" ] :=
  report_structure zeroTokens zeroRecord (by decide)

set_option maxHeartbeats 2000000 in
/-- C6: each reported value is rounded to the decimal precision implied
by its accuracy exponent; in particular, a record decoded with
`ion_pump_current` token `"-2.34567e-3"` (accuracy −3, unit `mA`,
report rank 0) yields the line `"ion_pump_current: -0.002mA"`, first
among the 7 reported lines. -/
theorem ion_pump_line (tokens : List String) (r : List ParameterSetting)
    (h : status_factory tokens = .ok r)
    (h18 : tokens.getD 18 "" = "-2.34567e-3") :
    ((reportFields r).map fieldLine).length = 7 ∧
    ((reportFields r).map fieldLine).getD 0 "" = "ion_pump_current: -0.002mA" := by
  obtain ⟨hz, hlen, -⟩ := status_factory_ok tokens r h
  obtain ⟨v, hv, hr18⟩ := zipParse_getD status_parameters tokens r hz 18 (by omega)
  rw [h18] at hv
  have hc : parseFloat "-2.34567e-3" = some ((-234567 : ℚ) / 100000000) := by decide
  rw [hc] at hv
  injection hv with hveq
  obtain ⟨v0, v1, v2, v3, v4, v5, v6, v7, v8, v9, v10, v11, v12, v13, v14, v15, v16, v17, v18, v19, v20, v21, v22, v23, v24, v25, v26, v27, v28, v29, v30, rfl⟩ := status_factory_shape tokens r h
  have hv18 : v18 = (-234567 : ℚ) / 100000000 := by
    have hval : v18 = v := congrArg ParameterSetting.value hr18
    rw [hval, ← hveq]
  refine ⟨rfl, ?_⟩
  show fieldLine (mkSetting (pdR "ion_pump_current" (-3) "mA" 0) v18) =
    "ion_pump_current: -0.002mA"
  rw [hv18]
  decide

set_option maxHeartbeats 2000000 in
/-- C6 witness: the concrete line with `ion_pump_current` token
`"-2.34567e-3"` and zeros elsewhere produces
`"ion_pump_current: -0.002mA"` as the first of its 7 report lines. -/
theorem ion_pump_line_witness :
    ((reportFields ionRecord).map fieldLine).length = 7 ∧
    ((reportFields ionRecord).map fieldLine).getD 0 "" = "ion_pump_current: -0.002mA" :=
  ion_pump_line ionTokens ionRecord (by decide) (by decide)

end VERAStatus
